import Mathlib

/-!
# Verification of the visitzuidlimburg.nl sitemap scraper

A shallow embedding, in Lean 4, of the scraper's core logic
(`main.py`, `utils/filters.py`, `utils/normalise.py`, `sources/fitcsv.py`),
together with theorems settling the specification's claims about it.

Python strings are embedded as Lean `String`s (the scraper only manipulates
text).  Python library helpers used by the code (`str.strip`, `str.lower`,
`str.split`, `str.capitalize`, `str.isdigit`, substring tests with `in`,
`urllib.parse.urlparse`/`urljoin` for the URL shapes the scraper handles,
and the two literal regexes of `find_outbound_in_soup`) are modelled as
executable Lean functions below.  A parsed BeautifulSoup document is
embedded as the list of its elements in `find_all` (document traversal)
order, each element carrying its tag name, attribute list, and the result
of `get_text(" ", strip=True)`.
-/

namespace VZL

/-! ## String primitives (models of the Python built-ins used by the code) -/

/-- Model of Python's `needle in hay` substring test, on character lists:
`needle.isPrefixOf hay` at some suffix of `hay`. -/
def subList : List Char → List Char → Bool
  | needle, [] => needle.isEmpty
  | needle, hay@(_ :: t) => needle.isPrefixOf hay || subList needle t

/-- `strContains hay needle` models Python `needle in hay`. -/
def strContains (hay needle : String) : Bool :=
  subList needle.data hay.data

/-- Model of Python `str.lower` (the scraper's strings are ASCII). -/
def strLower (s : String) : String :=
  ⟨s.data.map Char.toLower⟩

/-- Model of Python `str.strip()`: drop leading and trailing whitespace. -/
def strStrip (s : String) : String :=
  ⟨(((s.data.dropWhile Char.isWhitespace).reverse.dropWhile Char.isWhitespace).reverse)⟩

/-- Model of Python `str.isdigit()` for the ASCII strings the scraper sees:
non-empty and all characters decimal digits. -/
def pyIsDigit (s : String) : Bool :=
  !s.data.isEmpty && s.data.all Char.isDigit

/-- Model of Python `str.capitalize()`: first character upper-cased, the
rest lower-cased. -/
def pyCapitalize (s : String) : String :=
  match s.data with
  | [] => ""
  | c :: rest => ⟨c.toUpper :: rest.map Char.toLower⟩

/-- Split a character list at every occurrence of `sep`, keeping empty
pieces — the behaviour of Python `str.split("/")`. -/
def splitCharAux (sep : Char) : List Char → List Char → List String
  | acc, [] => [⟨acc.reverse⟩]
  | acc, c :: t =>
      if c = sep then ⟨acc.reverse⟩ :: splitCharAux sep [] t
      else splitCharAux sep (c :: acc) t

/-- Model of Python `s.split(sep)` for a one-character separator. -/
def pySplitOn (s : String) (sep : Char) : List String :=
  splitCharAux sep [] s.data

/-- Split on whitespace runs, dropping empty pieces — the behaviour of
Python's argumentless `str.split()`. -/
def pySplitWs (s : String) : List String :=
  (splitCharAux ' ' [] (s.data.map (fun c => if c.isWhitespace then ' ' else c))).filter
    (fun w => w ≠ "")

/-- Model of Python `str.rstrip("/")`: drop trailing slashes. -/
def rstripSlash (s : String) : String :=
  ⟨(s.data.reverse.dropWhile (fun c => c = '/')).reverse⟩

/-! ## URL primitives (models of `urllib.parse` for the URL shapes used) -/

/-- RFC 3986 scheme characters. -/
def isSchemeChar (c : Char) : Bool :=
  c.isAlpha || c.isDigit || c = '+' || c = '-' || c = '.'

/-- Drop a leading `scheme:` from a URL's characters when present, as
`urllib.parse.urlparse` does before looking for an authority. -/
def dropScheme (l : List Char) : List Char :=
  let pre := l.takeWhile isSchemeChar
  let rest := l.drop pre.length
  match pre, rest with
  | c :: _, ':' :: r => if c.isAlpha then r else l
  | _, _ => l

/-- Model of `urllib.parse.urlparse(u).netloc`: the authority component,
present only when the (scheme-stripped) URL starts with `//`, extending to
the next `/`, `?` or `#`. -/
def netlocOf (u : String) : String :=
  match dropScheme u.data with
  | '/' :: '/' :: r => ⟨r.takeWhile (fun c => c ≠ '/' && c ≠ '?' && c ≠ '#')⟩
  | _ => ""

/-- True when the URL's characters start with an explicit scheme
(`letter schemechar* :`), meaning it is absolute for `urljoin`. -/
def hasScheme (l : List Char) : Bool :=
  let pre := l.takeWhile isSchemeChar
  let rest := l.drop pre.length
  match pre, rest with
  | c :: _, ':' :: _ => c.isAlpha
  | _, _ => false

/-- The `scheme://authority` part of a URL, used by `urljoinModel` for
root-relative references. -/
def originOf (u : String) : String :=
  let schemePart := u.data.takeWhile (fun c => c ≠ ':')
  ⟨schemePart⟩ ++ "://" ++ netlocOf u

/-- Model of `urllib.parse.urljoin(base, ref)` for the URL shapes occurring
in this pipeline: absolute references are returned as-is, protocol-relative
references take the base's scheme, root-relative references attach to the
base's origin, and other references replace the last path segment of the
base. -/
def urljoinModel (base ref : String) : String :=
  if hasScheme ref.data then ref
  else if "//".data.isPrefixOf ref.data then ⟨base.data.takeWhile (fun c => c ≠ ':')⟩ ++ ":" ++ ref
  else if "/".data.isPrefixOf ref.data then originOf base ++ ref
  else ⟨(base.data.reverse.dropWhile (fun c => c ≠ '/')).reverse⟩ ++ ref

/-! ## `main.py`: constant tables -/

/-- `KEYWORDS` from `main.py`. -/
def KEYWORDS : List String :=
  ["direct boeken", "boek nu", "boeken", "reserveren", "naar de website",
   "website", "booking", "reserveer", "book"]

/-- `DATA_ATTRS` from `main.py`. -/
def DATA_ATTRS : List String :=
  ["data-href", "data-url", "data-link", "data-booking", "data-booking-url",
   "data-external-url", "data-cta-url", "data-target-url", "data-redirect",
   "data-redirect-url"]

/-! ## `main.py`: `is_external` -/

/-- `is_external` from `main.py`: the parsed host, lower-cased, is non-empty
and does not contain `visitzuidlimburg.nl`.  (The Python `try/except` guards
`urlparse`, which our total model never fails; the `except` branch returns
`False` and is unreachable here.) -/
def is_external (candidate : String) : Bool :=
  let host := strLower (netlocOf candidate)
  host ≠ "" && !(strContains host "visitzuidlimburg.nl")

/-! ## `main.py`: `classify` -/

/-- `classify` from `main.py`: the literal cascade of path-substring tests. -/
def classify (url : String) : String :=
  if strContains url "/overnachten/hotels/detail/" then "hotel-detail"
  else if strContains url "/overnachten/bed-breakfasts/detail/" then "bb-detail"
  else if strContains url "/overnachten/" && strContains url "/detail/" then "overnachten-detail"
  else if strContains url "/overnachten/" then "overnachten"
  else if strContains url "/eten-drinken/" && strContains url "/detail/" then "eten-drinken-detail"
  else if strContains url "/eten-drinken/" then "eten-drinken"
  else if strContains url "/doen/" && strContains url "/detail/" then "doen-detail"
  else if strContains url "/doen/" then "doen"
  else if strContains url "/zien-beleven/" && strContains url "/detail/" then "zien-beleven-detail"
  else if strContains url "/zien-beleven/" then "zien-beleven"
  else if strContains url "/govisit/" then "govisit"
  else "overig"

/-- The same rules as an ordered `(required substrings, label)` table, for
stating the first-match-wins property of `classify`. -/
def classifyRules : List (List String × String) :=
  [(["/overnachten/hotels/detail/"], "hotel-detail"),
   (["/overnachten/bed-breakfasts/detail/"], "bb-detail"),
   (["/overnachten/", "/detail/"], "overnachten-detail"),
   (["/overnachten/"], "overnachten"),
   (["/eten-drinken/", "/detail/"], "eten-drinken-detail"),
   (["/eten-drinken/"], "eten-drinken"),
   (["/doen/", "/detail/"], "doen-detail"),
   (["/doen/"], "doen"),
   (["/zien-beleven/", "/detail/"], "zien-beleven-detail"),
   (["/zien-beleven/"], "zien-beleven"),
   (["/govisit/"], "govisit")]

/-- A rule matches when all its required path substrings occur in the URL. -/
def ruleMatches (url : String) (r : List String × String) : Bool :=
  r.1.all (fun s => strContains url s)

/-- Evaluating the ordered rule table top-to-bottom, first match wins,
default label for unmatched URLs. -/
def classifyByRules (url : String) : String :=
  match classifyRules.find? (ruleMatches url) with
  | some r => r.2
  | none => "overig"

/-! ## `main.py`: `name_from_url` -/

/-- The word renderer inside `name_from_url`: the bed-and-breakfast aliases
(case-insensitive) become the literal `B&B`, every other word is
`capitalize`d. -/
def renderWord (w : String) : String :=
  if strLower w = "bb" || strLower w = "b&b" || strLower w = "benb" then "B&B"
  else pyCapitalize w

/-- Model of Python `" ".join(words)`. -/
def joinSpace : List String → String
  | [] => ""
  | [w] => w
  | w :: rest => w ++ " " ++ joinSpace rest

/-- Slug rendering inside `name_from_url`: hyphens to spaces, split into
words, render each word, join with single spaces.  (The Python
`slug.replace("-", " ")` has a one-character pattern, modelled as a
character map.) -/
def renderSlug (slug : String) : String :=
  let words := pySplitWs (strStrip ⟨slug.data.map (fun c => if c = '-' then ' ' else c)⟩)
  joinSpace (words.map renderWord)

/-- `name_from_url` from `main.py`: take the non-empty `/`-separated parts;
if the last part is purely numeric and a second-to-last exists, that one is
the slug, otherwise the last part is. -/
def name_from_url (url : String) : String :=
  match ((pySplitOn url '/').filter (fun p => p ≠ "")).reverse with
  | [] => ""
  | [last] => renderSlug last
  | last :: prev :: _ => if pyIsDigit last then renderSlug prev else renderSlug last

/-! ## `main.py`: the parsed-HTML model and `find_outbound_in_soup` -/

/-- One parsed HTML element: tag name, attributes, and the result of
BeautifulSoup's `get_text(" ", strip=True)` on it. -/
structure Element where
  tag : String
  attrs : List (String × String)
  text : String
deriving DecidableEq, Repr

/-- Model of BeautifulSoup `tag.get(attr)`: the attribute's value when
present. -/
def Element.getAttr (e : Element) (a : String) : Option String :=
  (e.attrs.find? (fun p => p.1 = a)).map (fun p => p.2)

/-- A parsed document: its elements in `find_all` (document traversal)
order. -/
abbrev Soup := List Element

/-- The character class `[^\s'"\\)]` of the `onclick` regex in
`find_outbound_in_soup`, negated: characters that stop the URL match. -/
def onclickStop (c : Char) : Bool :=
  c.isWhitespace || c = '\'' || c = '"' || c = '\\' || c = ')'

/-- One attempt of the regex `https?://[^stop]+` at the current position:
the literal prefix followed by a non-empty run of non-stop characters. -/
def httpMatchAt (stop : Char → Bool) (l : List Char) : Option String :=
  let rest :=
    if "https://".data.isPrefixOf l then some ("https://", l.drop 8)
    else if "http://".data.isPrefixOf l then some ("http://", l.drop 7)
    else none
  match rest with
  | none => none
  | some (pre, r) =>
      let run := r.takeWhile (fun c => !stop c)
      if run.isEmpty then none else some (pre ++ ⟨run⟩)

/-- Model of `re.search(r"https?://[^stop]+", s)`: leftmost match wins. -/
def findHttpUrl (stop : Char → Bool) : List Char → Option String
  | [] => none
  | l@(_ :: t) =>
      match httpMatchAt stop l with
      | some u => some u
      | none => findHttpUrl stop t

/-- The character class `[^\s"']` of the script regex, negated. -/
def scriptStop (c : Char) : Bool :=
  c.isWhitespace || c = '"' || c = '\''

/-- One attempt of the script regex
`https?://(?!www\.visitzuidlimburg\.nl)[^\s"']+` at the current position:
as `httpMatchAt`, but the negative lookahead refuses a match whose
authority starts with `www.visitzuidlimburg.nl`. -/
def scriptMatchAt (l : List Char) : Option String :=
  let rest :=
    if "https://".data.isPrefixOf l then some ("https://", l.drop 8)
    else if "http://".data.isPrefixOf l then some ("http://", l.drop 7)
    else none
  match rest with
  | none => none
  | some (pre, r) =>
      if "www.visitzuidlimburg.nl".data.isPrefixOf r then none
      else
        let run := r.takeWhile (fun c => !scriptStop c)
        if run.isEmpty then none else some (pre ++ ⟨run⟩)

/-- Model of `re.search` for the script regex: leftmost match wins. -/
def findScriptUrl : List Char → Option String
  | [] => none
  | l@(_ :: t) =>
      match scriptMatchAt l with
      | some u => some u
      | none => findScriptUrl t

/-- Does the lower-cased text contain one of the `KEYWORDS`?  Models
`any(k in txt.lower() for k in KEYWORDS)`. -/
def keywordIn (txt : String) : Bool :=
  KEYWORDS.any (fun k => strContains (strLower txt) k)

/-- Strategy 1 of `find_outbound_in_soup`, on one element: an anchor with a
non-empty `href`, visible text containing a keyword, resolving to an
external URL. -/
def strat1Elem (base : String) (e : Element) : Option (String × String) :=
  if e.tag = "a" && (e.getAttr "href").isSome then
    let txt := strStrip e.text
    let href := strStrip ((e.getAttr "href").getD "")
    if href = "" then none
    else
      let absUrl := urljoinModel base href
      if txt ≠ "" && keywordIn txt && is_external absUrl then some (txt, absUrl)
      else none
  else none

/-- Strategy 2 of `find_outbound_in_soup`, on one element: keyword text (or
no text at all) plus one of the `DATA_ATTRS` holding a value that resolves
to an external URL; the label is the text, or the attribute name when the
text is empty. -/
def strat2Elem (base : String) (e : Element) : Option (String × String) :=
  let txt := strStrip e.text
  if txt ≠ "" && !keywordIn txt then none
  else
    DATA_ATTRS.findSome? fun attr =>
      match e.getAttr attr with
      | none => none
      | some v =>
          if v = "" then none
          else
            let absUrl := urljoinModel base (strStrip v)
            if is_external absUrl then some (if txt = "" then attr else txt, absUrl)
            else none

/-- Strategy 3 of `find_outbound_in_soup`, on one element: a non-empty
`onclick` attribute, a keyword in the handler source or in the element's
text, and the handler's first embedded `http(s)` URL external; the label is
the element's text, or `"onclick"` when the text is empty. -/
def strat3Elem (e : Element) : Option (String × String) :=
  let onclick := strStrip ((e.getAttr "onclick").getD "")
  if onclick = "" then none
  else if keywordIn onclick || keywordIn e.text then
    match findHttpUrl onclickStop onclick.data with
    | some u =>
        if is_external u then
          some (strStrip (if e.text = "" then "onclick" else e.text), u)
        else none
    | none => none
  else none

/-- Strategy 4 of `find_outbound_in_soup`, on one script element: the first
embedded `http(s)` URL not pointing at `www.visitzuidlimburg.nl`, accepted
when external. -/
def strat4Elem (e : Element) : Option (String × String) :=
  if e.tag = "script" then
    match findScriptUrl e.text.data with
    | some u => if is_external u then some ("script-url", u) else none
    | none => none
  else none

/-- `find_outbound_in_soup` from `main.py`: the four strategies tried in
order over the whole document, first success wins, `("", "")` when none
matches. -/
def find_outbound_in_soup (doc : Soup) (base : String) : String × String :=
  match List.findSome? (strat1Elem base) doc with
  | some r => r
  | none =>
    match List.findSome? (strat2Elem base) doc with
    | some r => r
    | none =>
      match List.findSome? strat3Elem doc with
      | some r => r
      | none =>
        match List.findSome? strat4Elem doc with
        | some r => r
        | none => ("", "")

/-! ## `main.py`: sitemap reader -/

/-- One `<url>` block of the sitemap, as parsed XML: the optional text
content of its `<loc>` and `<lastmod>` children (`none` models a missing
child element or a `None` text node). -/
structure UrlBlock where
  loc : Option String
  lastmod : Option String
deriving DecidableEq, Repr

/-- `parse_sitemap` from `main.py`, over the parsed `<url>` blocks: strip
both texts and keep a `(loc, lastmod)` pair only when the stripped `loc` is
non-empty. -/
def parse_sitemap (blocks : List UrlBlock) : List (String × String) :=
  blocks.filterMap fun b =>
    let loc := strStrip (b.loc.getD "")
    let lastmod := strStrip (b.lastmod.getD "")
    if loc = "" then none else some (loc, lastmod)

/-! ## `main.py`: orchestration (`main`) -/

/-- An output row of the crawl table, as assembled in `main`. -/
structure Row where
  url : String
  lastmod : String
  type : String
  naam_afgeleid : String
  outbound_label : String
  outbound_url : String
  outbound_source : String
deriving DecidableEq, Repr

/-- A raised Python exception, as observed by the `except` handler in
`main`: its class name and its message. -/
structure PyError where
  cls : String
  msg : String
deriving DecidableEq, Repr

/-- `should_enrich` from `main.py`. -/
def should_enrich (url : String) (enrichAll : Bool) : Bool :=
  if enrichAll then true
  else strContains url "/detail/" || strContains url "/overnachten/"

/-- `should_js` from `main.py`. -/
def should_js (url : String) (jsAll : Bool) : Bool :=
  if jsAll then true
  else strContains url "/detail/"

/-- The body of the per-entry loop in `main`, for one sitemap entry.
`fetchRes` models fetching the page and parsing it into a soup (an
exception anywhere in `fetch_text`/`extract_outbound_from_html` is the
`error` case), `renderRes` likewise for `fetch_rendered_html`; both
outcomes are inputs, so the loop body is a pure function of them. -/
def processEntry (enrich js enrichAll jsAll : Bool) (url lastmod : String)
    (fetchRes : Except PyError Soup) (renderRes : Except PyError Soup) : Row :=
  let rtype := classify url
  let naam := name_from_url url
  if enrich && should_enrich url enrichAll then
    match fetchRes with
    | .error e =>
        ⟨url, lastmod, rtype, naam, "ERROR", e.cls ++ ": " ++ e.msg, "error"⟩
    | .ok soup =>
        let ext := find_outbound_in_soup soup url
        let src := if ext.2 ≠ "" then "html" else "none"
        if js && ext.2 = "" && should_js url jsAll then
          match renderRes with
          | .error e =>
              ⟨url, lastmod, rtype, naam, "ERROR", e.cls ++ ": " ++ e.msg, "error"⟩
          | .ok rsoup =>
              let rext := find_outbound_in_soup rsoup url
              let rsrc := if rext.2 ≠ "" then "rendered" else src
              ⟨url, lastmod, rtype, naam, rext.1, rext.2, rsrc⟩
        else ⟨url, lastmod, rtype, naam, ext.1, ext.2, src⟩
  else ⟨url, lastmod, rtype, naam, "", "", "none"⟩

/-- The crawl stage of `main`: one row appended per sitemap entry, in
order.  `eff` supplies, per entry, the outcome of the network fetch and of
the optional render. -/
def crawlRows (enrich js enrichAll jsAll : Bool)
    (eff : String × String → (Except PyError Soup) × (Except PyError Soup))
    (entries : List (String × String)) : List Row :=
  entries.map fun p =>
    processEntry enrich js enrichAll jsAll p.1 p.2 (eff p).1 (eff p).2

/-! ## Second pipeline: `sources/fitcsv.py`, `utils/normalise.py`,
`utils/filters.py` -/

/-- The four-field business record of the second pipeline. -/
structure BusinessRecord where
  naam : String
  plaats : String
  website : String
  categorie : String
deriving DecidableEq, Repr

/-- The per-row mapping of `collect` in `sources/fitcsv.py`: read the four
columns (`none` models a missing column) and strip each. -/
def collectRow (naam_afgeleid city url category : Option String) : BusinessRecord :=
  ⟨strStrip (naam_afgeleid.getD ""), strStrip (city.getD ""),
   strStrip (url.getD ""), strStrip (category.getD "")⟩

/-- `clean_url` from `utils/normalise.py`: strip, drop everything from the
first `?` on (the regex `\?.*$` on these single-line URLs), drop trailing
slashes. -/
def clean_url (url : String) : String :=
  let u := strStrip url
  let u := ⟨u.data.takeWhile (fun c => c ≠ '?')⟩
  rstripSlash u

/-- `normalise_category` from `utils/normalise.py`: ordered substring rules
over the lower-cased category, first match wins, default `"Overig"`. -/
def normalise_category (cat : String) : String :=
  let c := strLower cat
  if strContains c "restaurant" then "Restaurant"
  else if strContains c "cafe" then "Caf\xC3\xA9"
  else if strContains c "hotel" || strContains c "logies" || strContains c "bnb" then "Logies"
  else if strContains c "winkel" then "Winkel"
  else if strContains c "wellness" || strContains c "sauna" then "Wellness"
  else if strContains c "attract" || strContains c "museum" then "Attractie"
  else "Overig"

/-- `normalise_record` from `utils/normalise.py`. -/
def normalise_record (r : BusinessRecord) : BusinessRecord :=
  ⟨strStrip r.naam, strStrip r.plaats, clean_url r.website, normalise_category r.categorie⟩

/-- The `bad` blocklist of `utils/filters.py`. -/
def badList : List String :=
  ["vvnnederland.nl", "booking.", "hotels.com", "expedia", "reserveer", "affiliate"]

/-- `is_valid` from `utils/filters.py`: name, place and website non-empty,
and no blocklist entry occurs in the lower-cased website string. -/
def is_valid (r : BusinessRecord) : Bool :=
  if r.naam = "" then false
  else if r.plaats = "" then false
  else if r.website = "" then false
  else if badList.any (fun b => strContains (strLower r.website) b) then false
  else true

/-- Modelled from the spec: the lenient pipeline variant (spec §4.7) that,
instead of dropping a record with a blocklisted website, clears only the
website field and keeps the record.  No source file under `src/` implements
this variant; per the spec it applies the same blocklist by substring match
on the website and blanks the field when it matches. -/
def lenient_clear_website (r : BusinessRecord) : BusinessRecord :=
  if badList.any (fun b => strContains (strLower r.website) b) then
    ⟨r.naam, r.plaats, "", r.categorie⟩
  else r

/-! ## Helper lemmas -/

theorem findSome_imp {α β : Type} {f : α → Option β} {l : List α} {b : β}
    (h : l.findSome? f = some b) : ∃ a, a ∈ l ∧ f a = some b := by
  induction l with
  | nil => simp [List.findSome?] at h
  | cons x t ih =>
    rw [List.findSome?_cons] at h
    cases hx : f x with
    | some v =>
      rw [hx] at h
      simp at h
      exact ⟨x, by simp, by rw [hx, h]⟩
    | none =>
      rw [hx] at h
      simp at h
      obtain ⟨a, ha, hfa⟩ := ih h
      exact ⟨a, by simp [ha], hfa⟩

theorem findSome_of_mem {α β : Type} {f : α → Option β} {l : List α} {a : α}
    (hmem : a ∈ l) (hf : (f a).isSome = true) : ∃ b, l.findSome? f = some b := by
  induction l with
  | nil => simp at hmem
  | cons x t ih =>
    rw [List.findSome?_cons]
    cases hx : f x with
    | some v => exact ⟨v, rfl⟩
    | none =>
      rcases List.mem_cons.mp hmem with h | h
      · subst h; rw [hx] at hf; simp at hf
      · simpa using ih h

theorem is_external_ne_empty {u : String} (h : is_external u = true) : u ≠ "" := by
  intro he
  subst he
  simp [is_external, netlocOf, dropScheme, strLower] at h

theorem strat1_sound {base : String} {e : Element} {l u : String}
    (h : strat1Elem base e = some (l, u)) :
    is_external u = true ∧ l ≠ "" := by
  unfold strat1Elem at h
  dsimp only [] at h
  split_ifs at h with h1 h2 h3
  simp only [Option.some.injEq, Prod.mk.injEq] at h
  obtain ⟨hl, hu⟩ := h
  simp only [Bool.and_eq_true, decide_eq_true_eq] at h3
  exact ⟨hu ▸ h3.2, hl ▸ h3.1.1⟩

theorem strat2_sound {base : String} {e : Element} {l u : String}
    (h : strat2Elem base e = some (l, u)) :
    is_external u = true ∧ l ≠ "" := by
  unfold strat2Elem at h
  dsimp only [] at h
  split_ifs at h with h1 h2
  all_goals (
    obtain ⟨attr, hmem, hattr⟩ := findSome_imp h
    (have hattrne : attr ≠ "" := by
      have hall : DATA_ATTRS.all (fun a => a ≠ "") = true := by decide
      rw [List.all_eq_true] at hall
      simpa using hall attr hmem)
    cases hget : e.getAttr attr with
    | none => rw [hget] at hattr; simp at hattr
    | some v =>
      rw [hget] at hattr
      dsimp only [] at hattr
      split_ifs at hattr with hv hext
      simp only [Option.some.injEq, Prod.mk.injEq] at hattr
      obtain ⟨hl, hu⟩ := hattr
      refine ⟨hu ▸ hext, ?_⟩
      rw [← hl]
      first
      | exact hattrne
      | exact h2)

theorem strat3_sound {e : Element} {l u : String}
    (h : strat3Elem e = some (l, u)) :
    is_external u = true ∧ (strStrip e.text = e.text → l ≠ "") := by
  unfold strat3Elem at h
  dsimp only [] at h
  split_ifs at h with h1 h2 h3
  all_goals (
    cases hm : findHttpUrl onclickStop (strStrip ((e.getAttr "onclick").getD "")).data with
    | none => rw [hm] at h; simp at h
    | some v =>
      rw [hm] at h
      dsimp only [] at h
      split_ifs at h with hext
      simp only [Option.some.injEq, Prod.mk.injEq] at h
      obtain ⟨hl, hu⟩ := h
      refine ⟨hu ▸ hext, fun hwf => ?_⟩
      rw [← hl]
      first
      | decide
      | (rw [hwf]; exact h3))

theorem strat4_sound {e : Element} {l u : String}
    (h : strat4Elem e = some (l, u)) :
    is_external u = true ∧ l ≠ "" := by
  unfold strat4Elem at h
  split_ifs at h with h1
  cases hm : findScriptUrl e.text.data with
  | none => rw [hm] at h; simp at h
  | some v =>
    rw [hm] at h
    dsimp only [] at h
    split_ifs at h with hext
    simp only [Option.some.injEq, Prod.mk.injEq] at h
    obtain ⟨hl, hu⟩ := h
    exact ⟨hu ▸ hext, by rw [← hl]; decide⟩

theorem outbound_result (doc : Soup) (base : String) :
    find_outbound_in_soup doc base = ("", "") ∨
    (is_external (find_outbound_in_soup doc base).2 = true ∧
     ((∀ e ∈ doc, strStrip e.text = e.text) → (find_outbound_in_soup doc base).1 ≠ "")) := by
  unfold find_outbound_in_soup
  cases hf1 : List.findSome? (strat1Elem base) doc with
  | some r =>
    right
    obtain ⟨a, hmem, ha⟩ := findSome_imp hf1
    obtain ⟨hext, hlbl⟩ := strat1_sound (l := r.1) (u := r.2) (by rw [ha])
    exact ⟨hext, fun _ => hlbl⟩
  | none =>
  cases hf2 : List.findSome? (strat2Elem base) doc with
  | some r =>
    right
    obtain ⟨a, hmem, ha⟩ := findSome_imp hf2
    obtain ⟨hext, hlbl⟩ := strat2_sound (l := r.1) (u := r.2) (by rw [ha])
    exact ⟨hext, fun _ => hlbl⟩
  | none =>
  cases hf3 : List.findSome? strat3Elem doc with
  | some r =>
    right
    obtain ⟨a, hmem, ha⟩ := findSome_imp hf3
    obtain ⟨hext, hlbl⟩ := strat3_sound (l := r.1) (u := r.2) (by rw [ha])
    exact ⟨hext, fun hwf => hlbl (hwf a hmem)⟩
  | none =>
  cases hf4 : List.findSome? strat4Elem doc with
  | some r =>
    right
    obtain ⟨a, hmem, ha⟩ := findSome_imp hf4
    obtain ⟨hext, hlbl⟩ := strat4_sound (l := r.1) (u := r.2) (by rw [ha])
    exact ⟨hext, fun _ => hlbl⟩
  | none => left; rfl

theorem processEntry_shape (enrich js enrichAll jsAll : Bool) (url lastmod : String)
    (fetchRes renderRes : Except PyError Soup) :
    ((processEntry enrich js enrichAll jsAll url lastmod fetchRes renderRes).outbound_source = "none" ∧
     (processEntry enrich js enrichAll jsAll url lastmod fetchRes renderRes).outbound_label = "" ∧
     (processEntry enrich js enrichAll jsAll url lastmod fetchRes renderRes).outbound_url = "") ∨
    (processEntry enrich js enrichAll jsAll url lastmod fetchRes renderRes).outbound_source = "error" ∨
    ((processEntry enrich js enrichAll jsAll url lastmod fetchRes renderRes).outbound_source = "html" ∧
     (processEntry enrich js enrichAll jsAll url lastmod fetchRes renderRes).outbound_url ≠ "") ∨
    ((processEntry enrich js enrichAll jsAll url lastmod fetchRes renderRes).outbound_source = "rendered" ∧
     (processEntry enrich js enrichAll jsAll url lastmod fetchRes renderRes).outbound_url ≠ "") := by
  by_cases hgate : (enrich && should_enrich url enrichAll) = true
  · cases fetchRes with
    | error e => simp [processEntry, hgate]
    | ok soup =>
      rcases outbound_result soup url with hs | ⟨hsext, _⟩
      · by_cases hjs : (js && should_js url jsAll) = true
        · cases renderRes with
          | error e => simp [processEntry, hgate, hjs, hs]
          | ok rsoup =>
            rcases outbound_result rsoup url with hr | ⟨hrex, _⟩
            · simp [processEntry, hgate, hjs, hs, hr]
            · have hrne := is_external_ne_empty hrex
              simp [processEntry, hgate, hjs, hs, hrne]
        · simp [processEntry, hgate, hjs, hs]
      · have hne := is_external_ne_empty hsext
        simp [processEntry, hgate, hne]
  · simp [processEntry, hgate]

/-! ## The claims -/

/-- C1: when a parsed document contains both an anchor matching extraction
strategy 1 (non-empty `href`, keyword text, external resolved URL) and an
element matching strategy 2 (keyword text plus a data-attribute resolving
to an external URL), `find_outbound_in_soup` returns the strategy-1 result
— the cascade stops at the first matching strategy in the fixed order. -/
theorem C1_cascade_strategy1_wins (doc : Soup) (base txt u : String)
    (h1 : List.findSome? (strat1Elem base) doc = some (txt, u))
    (_h2 : ∃ e ∈ doc, (strat2Elem base e).isSome = true) :
    find_outbound_in_soup doc base = (txt, u) := by
  unfold find_outbound_in_soup
  rw [h1]

/-- Witness for C1: a page with a matching `Direct boeken` anchor and a
matching `data-url` element; strategy 1's anchor wins. -/
theorem C1_witness :
    (List.findSome? (strat1Elem "https://www.visitzuidlimburg.nl/p")
      [⟨"a", [("href", "https://partner.com/book")], "Direct boeken"⟩,
       ⟨"div", [("data-url", "https://other.com/x")], "Boek nu"⟩] =
      some ("Direct boeken", "https://partner.com/book")) ∧
    find_outbound_in_soup
      [⟨"a", [("href", "https://partner.com/book")], "Direct boeken"⟩,
       ⟨"div", [("data-url", "https://other.com/x")], "Boek nu"⟩]
      "https://www.visitzuidlimburg.nl/p" = ("Direct boeken", "https://partner.com/book") :=
  ⟨by decide,
   C1_cascade_strategy1_wins _ _ _ _ (by decide)
     ⟨⟨"div", [("data-url", "https://other.com/x")], "Boek nu"⟩, by decide, by decide⟩⟩

/-- C2: `is_external` returns true iff the URL's host component (the
parsed authority, lower-cased as in the source) is non-empty and does not
contain the site's own registrable domain `visitzuidlimburg.nl` as a
substring; with the two concrete examples from the specification. -/
theorem C2_is_external_spec :
    (∀ c : String, is_external c = true ↔
      (strLower (netlocOf c) ≠ "" ∧
       strContains (strLower (netlocOf c)) "visitzuidlimburg.nl" = false)) ∧
    is_external "https://partner-hotel.com/book" = true ∧
    is_external "https://www.visitzuidlimburg.nl/overnachten/x" = false := by
  refine ⟨fun c => ?_, by decide, by decide⟩
  unfold is_external
  dsimp only []
  simp [Bool.and_eq_true, Bool.not_eq_true', decide_eq_true_eq]

/-- C3 (amended): a failure while enriching one sitemap entry — whether
raised at the fetch/parse stage or at the later render stage — is caught
at the entry level and recorded as an `error`-sourced row, and the crawl
still emits exactly one row per entry; in that error row the label field
holds the literal string `ERROR` while the url field holds
`<error class name>: <error message>`. -/
theorem C3_error_row (enrich js enrichAll jsAll : Bool) (url lastmod : String)
    (e : PyError)
    (henrich : enrich = true) (hgate : should_enrich url enrichAll = true) :
    (∀ renderRes : Except PyError Soup,
      processEntry enrich js enrichAll jsAll url lastmod (Except.error e) renderRes =
        ⟨url, lastmod, classify url, name_from_url url, "ERROR", e.cls ++ ": " ++ e.msg, "error"⟩) ∧
    (∀ soup : Soup, js = true → should_js url jsAll = true →
      (find_outbound_in_soup soup url).2 = "" →
      processEntry enrich js enrichAll jsAll url lastmod (Except.ok soup) (Except.error e) =
        ⟨url, lastmod, classify url, name_from_url url, "ERROR", e.cls ++ ": " ++ e.msg, "error"⟩) ∧
    ∀ (eff : String × String → (Except PyError Soup) × (Except PyError Soup))
      (entries : List (String × String)),
      (crawlRows enrich js enrichAll jsAll eff entries).length = entries.length := by
  refine ⟨fun renderRes => ?_, fun soup hjs hsjs hempty => ?_, fun eff entries => ?_⟩
  · unfold processEntry
    rw [henrich, hgate]
    simp
  · unfold processEntry
    rw [henrich, hgate]
    simp [hjs, hsjs, hempty]
  · unfold crawlRows
    simp

/-- Witness for C3: a concrete `Timeout` failure at the fetch stage, a
concrete `TimeoutError` failure at the render stage (static extraction
missed, JS fallback on), and the per-entry row count. -/
theorem C3_witness :
    processEntry true false false false "https://x/detail/a" "lm"
      (Except.error ⟨"Timeout", "boom"⟩) (Except.ok []) =
      ⟨"https://x/detail/a", "lm", classify "https://x/detail/a",
       name_from_url "https://x/detail/a", "ERROR", "Timeout" ++ ": " ++ "boom", "error"⟩ ∧
    processEntry true true false false "https://x/detail/a" "lm"
      (Except.ok []) (Except.error ⟨"TimeoutError", "nav"⟩) =
      ⟨"https://x/detail/a", "lm", classify "https://x/detail/a",
       name_from_url "https://x/detail/a", "ERROR", "TimeoutError" ++ ": " ++ "nav", "error"⟩ ∧
    (crawlRows true false false false
      (fun _ => (Except.error ⟨"Timeout", "boom"⟩, Except.ok []))
      [("https://x/detail/a", "lm")]).length = 1 :=
  ⟨(C3_error_row true false false false "https://x/detail/a" "lm" ⟨"Timeout", "boom"⟩
      rfl (by decide)).1 (Except.ok []),
   (C3_error_row true true false false "https://x/detail/a" "lm" ⟨"TimeoutError", "nav"⟩
      rfl (by decide)).2.1 [] rfl (by decide) (by decide),
   (C3_error_row true false false false "https://x/detail/a" "lm" ⟨"Timeout", "boom"⟩
      rfl (by decide)).2.2 _ [("https://x/detail/a", "lm")]⟩

/-- Counterexample for C3 as stated: in the error row for a raised
`Timeout`, the label field is the literal `ERROR`, not the error class
name `Timeout`; the class name goes into the url field together with the
message. -/
theorem C3_counterexample :
    ((processEntry true false false false "https://x/detail/a" "lm"
        (Except.error ⟨"Timeout", "boom"⟩) (Except.ok [])).outbound_source = "error") ∧
    ((processEntry true false false false "https://x/detail/a" "lm"
        (Except.error ⟨"Timeout", "boom"⟩) (Except.ok [])).outbound_label = "ERROR") ∧
    ((processEntry true false false false "https://x/detail/a" "lm"
        (Except.error ⟨"Timeout", "boom"⟩) (Except.ok [])).outbound_label ≠ "Timeout") ∧
    ((processEntry true false false false "https://x/detail/a" "lm"
        (Except.error ⟨"Timeout", "boom"⟩) (Except.ok [])).outbound_url = "Timeout: boom") := by
  decide

/-- C4 (amended): the crawl stage itself is 1:1 — one output row per
sitemap entry, no drops, no dedup — but the sitemap reader skips `<url>`
blocks whose `<loc>` is missing or blank, so the number of output rows
equals the number of `<url>` blocks with a non-empty stripped `<loc>`. -/
theorem C4_crawl_row_counts
    (enrich js enrichAll jsAll : Bool)
    (eff : String × String → (Except PyError Soup) × (Except PyError Soup))
    (blocks : List UrlBlock) :
    (∀ entries : List (String × String),
      (crawlRows enrich js enrichAll jsAll eff entries).length = entries.length) ∧
    (crawlRows enrich js enrichAll jsAll eff (parse_sitemap blocks)).length =
      (blocks.filter (fun b => strStrip (b.loc.getD "") ≠ "")).length := by
  have hlen : ∀ entries : List (String × String),
      (crawlRows enrich js enrichAll jsAll eff entries).length = entries.length := by
    intro entries
    unfold crawlRows
    simp
  refine ⟨hlen, ?_⟩
  rw [hlen]
  induction blocks with
  | nil => rfl
  | cons b t ih =>
    by_cases h : strStrip (b.loc.getD "") = ""
    · simp [parse_sitemap, List.filterMap_cons, List.filter_cons, h] at ih ⊢
      exact ih
    · simp [parse_sitemap, List.filterMap_cons, List.filter_cons, h] at ih ⊢
      exact ih

/-- Counterexample for C4 as stated: a sitemap with one `<url>` block that
has no `<loc>` produces zero output rows, so the row count does not equal
the `<url>`-block count — the reader does filter. -/
theorem C4_counterexample :
    ([(⟨none, none⟩ : UrlBlock)].length = 1) ∧
    (crawlRows false false false false (fun _ => (Except.ok [], Except.ok []))
      (parse_sitemap [⟨none, none⟩])).length = 0 := by
  decide

set_option maxHeartbeats 4000000 in
/-- C5: the name deriver takes the last non-empty path segment as the slug
unless that segment is purely numeric and a second-to-last exists (then
that one is the slug); the slug is rendered hyphens-to-spaces with each
word capitalised, and the case-insensitive aliases `bb`/`b&b`/`benb`
render as the literal `B&B`; with the specification's concrete example. -/
theorem C5_name_deriver :
    (name_from_url "https://x/overnachten/hotels/detail/hotel-de-kroon/12345/" = "Hotel De Kroon") ∧
    (∀ url last prev rest,
      ((pySplitOn url '/').filter (fun p => p ≠ "")).reverse = last :: prev :: rest →
      ((pyIsDigit last = true → name_from_url url = renderSlug prev) ∧
       (pyIsDigit last = false → name_from_url url = renderSlug last))) ∧
    (∀ url last,
      ((pySplitOn url '/').filter (fun p => p ≠ "")).reverse = [last] →
      name_from_url url = renderSlug last) ∧
    (∀ w, (strLower w = "bb" ∨ strLower w = "b&b" ∨ strLower w = "benb") →
      renderWord w = "B&B") := by
  refine ⟨by decide, ?_, ?_, ?_⟩
  · intro url last prev rest h
    unfold name_from_url
    rw [h]
    constructor <;> intro hd <;> simp [hd]
  · intro url last h
    unfold name_from_url
    rw [h]
  · intro w h
    unfold renderWord
    rcases h with h | h | h <;> simp [h]

set_option maxHeartbeats 4000000 in
/-- Witness for C5: the alias `BenB` renders as `B&B`, and a URL ending in
a numeric segment takes the second-to-last segment as its slug. -/
theorem C5_witness :
    renderWord "BenB" = "B&B" ∧ name_from_url "https://x/a-b/99/" = renderSlug "a-b" :=
  ⟨C5_name_deriver.2.2.2 "BenB" (Or.inr (Or.inr (by decide))),
   (C5_name_deriver.2.1 "https://x/a-b/99/" "99" "a-b" ["x", "https:"] (by decide)).1 (by decide)⟩

set_option maxHeartbeats 4000000 in
/-- C6 (amended): `classify` is a total function over strings equal to
evaluating the ordered `(pathSubstrings, label)` rule table top-to-bottom
with first match winning; whenever `/detail/` occurs in the URL the
generic category labels can never result, so the `/detail/`-combined rules
beat their generic counterparts; unmatched URLs classify as the literal
`"overig"` (not `"other"`). -/
theorem C6_classifier :
    (∀ url, classify url = classifyByRules url) ∧
    (∀ url, strContains url "/detail/" = true →
      classify url ≠ "overnachten" ∧ classify url ≠ "eten-drinken" ∧
      classify url ≠ "doen" ∧ classify url ≠ "zien-beleven") := by
  constructor
  · intro url
    unfold classify classifyByRules classifyRules ruleMatches
    simp only [List.find?, List.all]
    split_ifs <;> simp_all
  · intro url hd
    unfold classify
    split_ifs <;> simp_all

set_option maxHeartbeats 1000000 in
/-- Witness for C6: on a URL containing both the `doen` category substring
and `/detail/`, the generic label does not win. -/
theorem C6_witness :
    classify "https://a/doen/detail/x/" ≠ "overnachten" ∧
    classify "https://a/doen/detail/x/" ≠ "eten-drinken" ∧
    classify "https://a/doen/detail/x/" ≠ "doen" ∧
    classify "https://a/doen/detail/x/" ≠ "zien-beleven" :=
  C6_classifier.2 "https://a/doen/detail/x/" (by decide)

set_option maxHeartbeats 1000000 in
/-- Counterexample for C6 as stated: a URL matching no rule classifies as
the Dutch literal `"overig"`, not as `"other"`. -/
theorem C6_counterexample :
    (classifyRules.find? (ruleMatches "https://www.visitzuidlimburg.nl/contact") = none) ∧
    classify "https://www.visitzuidlimburg.nl/contact" = "overig" ∧
    classify "https://www.visitzuidlimburg.nl/contact" ≠ "other" := by
  decide

/-- C7 (amended): the strict filter admits a record iff name, place and
website are all non-empty and no blocklist entry occurs as a substring of
the entire lower-cased website string (not merely of its host); a record
with empty place is dropped, and a record with website
`https://booking.com/x` is dropped. -/
theorem C7_filter_spec :
    (∀ r : BusinessRecord, is_valid r = true ↔
      (r.naam ≠ "" ∧ r.plaats ≠ "" ∧ r.website ≠ "" ∧
       ∀ b ∈ badList, strContains (strLower r.website) b = false)) ∧
    (∀ r : BusinessRecord, r.plaats = "" → is_valid r = false) ∧
    is_valid ⟨"Hotel X", "Valkenburg", "https://booking.com/x", "hotel"⟩ = false := by
  refine ⟨fun r => ?_, fun r hp => ?_, by decide⟩
  · unfold is_valid
    split_ifs with h1 h2 h3 h4
    · simp [h1]
    · simp [h1, h2]
    · simp [h1, h2, h3]
    · constructor
      · intro hfalse; simp at hfalse
      · rintro ⟨hn, hpl, hw, hbl⟩
        rw [List.any_eq_true] at h4
        obtain ⟨b, hmem, hb⟩ := h4
        rw [hbl b hmem] at hb
        simp at hb
    · constructor
      · intro _
        refine ⟨h1, h2, h3, fun b hmem => ?_⟩
        by_contra hc
        have hb : strContains (strLower r.website) b = true := by
          cases hx : strContains (strLower r.website) b
          · exact absurd hx hc
          · rfl
        exact h4 (List.any_eq_true.mpr ⟨b, hmem, hb⟩)
      · intro _; rfl
  · unfold is_valid
    rw [hp]
    split_ifs <;> simp_all

/-- Witness for C7: a record with empty place is dropped. -/
theorem C7_witness :
    is_valid ⟨"Hotel X", "", "https://hotelx.nl", "hotel"⟩ = false :=
  C7_filter_spec.2.1 ⟨"Hotel X", "", "https://hotelx.nl", "hotel"⟩ rfl

/-- Counterexample for C7 as stated: a record whose fields are all
non-empty and whose website host matches no blocklist entry is still
dropped, because the blocklist substring check runs against the whole
website string (here the path contains `affiliate`). -/
theorem C7_counterexample :
    (is_valid ⟨"A", "B", "https://example.com/affiliate-link", "x"⟩ = false) ∧
    ("A" : String) ≠ "" ∧ ("B" : String) ≠ "" ∧
    ("https://example.com/affiliate-link" : String) ≠ "" ∧
    badList.all
      (fun b => !(strContains (strLower (netlocOf "https://example.com/affiliate-link")) b)) = true := by
  decide

/-- C8: under the lenient pipeline variant (website cleared when
blocklisted, record kept), the specification's CSV input row normalizes to
the expected four-field output record: website cleared, query string
stripped, category mapped by substring rule to `Restaurant`. -/
theorem C8_lenient_end_to_end :
    lenient_clear_website (normalise_record (collectRow
        (some "Cafe Central") (some "Maastricht")
        (some "https://booking.com/x?ref=1") (some "restaurant"))) =
      (⟨"Cafe Central", "Maastricht", "", "Restaurant"⟩ : BusinessRecord) := by
  decide

/-- C9: whenever the static extractor returns a non-empty url, that url
passes the external check and the accompanying label is non-empty; the
well-formedness hypothesis states that each element's text is the output
of `get_text(" ", strip=True)` and hence already stripped. -/
theorem C9_outbound_is_external (doc : Soup) (base : String)
    (hwf : ∀ e ∈ doc, strStrip e.text = e.text)
    (hne : (find_outbound_in_soup doc base).2 ≠ "") :
    is_external (find_outbound_in_soup doc base).2 = true ∧
    (find_outbound_in_soup doc base).1 ≠ "" := by
  rcases outbound_result doc base with h | ⟨hext, hlbl⟩
  · rw [h] at hne; simp at hne
  · exact ⟨hext, hlbl hwf⟩

/-- Witness for C9: a concrete page whose extracted outbound link is
external with a non-empty label. -/
theorem C9_witness :
    is_external (find_outbound_in_soup
      [⟨"a", [("href", "https://partner.com/book")], "Direct boeken"⟩]
      "https://www.visitzuidlimburg.nl/p").2 = true ∧
    (find_outbound_in_soup
      [⟨"a", [("href", "https://partner.com/book")], "Direct boeken"⟩]
      "https://www.visitzuidlimburg.nl/p").1 ≠ "" :=
  C9_outbound_is_external _ _ (by decide) (by decide)

/-- C10: every assembled output row has an outbound source among exactly
`none`, `html`, `rendered`, `error`; when the source is `none` both the
outbound label and the outbound url are empty; and the static-HTML tag is
the literal `"html"`, shown on a concrete successful static extraction. -/
theorem C10_row_source_invariant (enrich js enrichAll jsAll : Bool) (url lastmod : String)
    (fetchRes renderRes : Except PyError Soup) :
    ((processEntry enrich js enrichAll jsAll url lastmod fetchRes renderRes).outbound_source = "none" ∨
     (processEntry enrich js enrichAll jsAll url lastmod fetchRes renderRes).outbound_source = "html" ∨
     (processEntry enrich js enrichAll jsAll url lastmod fetchRes renderRes).outbound_source = "rendered" ∨
     (processEntry enrich js enrichAll jsAll url lastmod fetchRes renderRes).outbound_source = "error") ∧
    ((processEntry enrich js enrichAll jsAll url lastmod fetchRes renderRes).outbound_source = "none" →
     (processEntry enrich js enrichAll jsAll url lastmod fetchRes renderRes).outbound_label = "" ∧
     (processEntry enrich js enrichAll jsAll url lastmod fetchRes renderRes).outbound_url = "") ∧
    (processEntry true false false false "https://x/detail/a" ""
        (Except.ok [⟨"a", [("href", "https://partner.com/book")], "Boek nu"⟩])
        (Except.ok [])).outbound_source = "html" := by
  refine ⟨?_, ?_, by decide⟩
  · rcases processEntry_shape enrich js enrichAll jsAll url lastmod fetchRes renderRes with
      ⟨h, _, _⟩ | h | ⟨h, _⟩ | ⟨h, _⟩ <;> simp [h]
  · intro hnone
    rcases processEntry_shape enrich js enrichAll jsAll url lastmod fetchRes renderRes with
      ⟨_, h1, h2⟩ | h | ⟨h, _⟩ | ⟨h, _⟩
    · exact ⟨h1, h2⟩
    · rw [h] at hnone; exact absurd hnone (by decide)
    · rw [h] at hnone; exact absurd hnone (by decide)
    · rw [h] at hnone; exact absurd hnone (by decide)

/-- Witness for C10: a non-enriched entry has source `none` and empty
outbound fields. -/
theorem C10_witness :
    (processEntry false false false false "https://x" "" (Except.ok []) (Except.ok [])).outbound_label = "" ∧
    (processEntry false false false false "https://x" "" (Except.ok []) (Except.ok [])).outbound_url = "" :=
  (C10_row_source_invariant false false false false "https://x" "" (Except.ok []) (Except.ok [])).2.1
    (by decide)

end VZL
